import Mathlib

/-!
Verification of the phugoid flight-path integrator (`phugoid.py`).

The numeric core of the script is shallowly embedded over the real numbers:
Python floats become `ℝ`, `numpy.cos`/`numpy.sin` become `Real.cos`/`Real.sin`,
the float power `**` becomes `Real.rpow`, and Lean's total division models the
script's non-signalling arithmetic (`numpy.seterr(all='ignore')`): no operation
can raise, degenerate values simply propagate into later points.

The marching loop of `plot_flight_path` is embedded as an iterated step
function on a state carrying the current point `(x, z)`, the heading `theta`,
and the integration constant `C`, exactly mirroring the loop body.
-/

namespace Phugoid

/-- Embedding of `radius_of_curvature(z, zt, C)`:
`return zt / (1./3. - C/2.*(zt/z)**1.5)`. -/
noncomputable def radius_of_curvature (z zt C : ℝ) : ℝ :=
  zt / (1 / 3 - C / 2 * (zt / z) ^ (1.5 : ℝ))

/-- Embedding of `rotate(x, z, xCenter, zCenter, angle)`:
`dx = x - xCenter; dz = z - zCenter;`
`xNew = dx*cos(angle) + dz*sin(angle); zNew = -dx*sin(angle) + dz*cos(angle);`
`return xCenter + xNew, zCenter + zNew`. -/
noncomputable def rotate (x z xCenter zCenter angle : ℝ) : ℝ × ℝ :=
  let dx := x - xCenter
  let dz := z - zCenter
  let xNew := dx * Real.cos angle + dz * Real.sin angle
  let zNew := -dx * Real.sin angle + dz * Real.cos angle
  (xCenter + xNew, zCenter + zNew)

/-- Array length `N = 1000` in `plot_flight_path`. -/
def N : ℕ := 1000

/-- Arc-length step `ds = 1.` in `plot_flight_path`. -/
noncomputable def ds : ℝ := 1

/-- The integration constant as computed in `plot_flight_path`, line 89:
`C = (numpy.cos(theta) - 1./3.*z[0]/zt)*(z[0]/zt)**.5`
with `theta = theta0` and `z[0] = z0` at that point. -/
noncomputable def intConst (zt z0 theta0 : ℝ) : ℝ :=
  (Real.cos theta0 - 1 / 3 * z0 / zt) * (z0 / zt) ^ (0.5 : ℝ)

/-- The per-iteration state of the marching loop: the last written point
`(x[i-1], z[i-1])`, the accumulated heading `theta`, and the local `C`
(which the loop body reads but never assigns). -/
structure LoopState where
  x : ℝ
  z : ℝ
  theta : ℝ
  C : ℝ

/-- One iteration of the loop body of `plot_flight_path` (lines 94-101):
normal, radius `R`, rotation center, `dtheta = ds/R`, the rotated next point,
and the heading update `theta = theta + dtheta`. -/
noncomputable def stepState (zt : ℝ) (s : LoopState) : LoopState :=
  let normal : ℝ × ℝ :=
    (Real.cos (s.theta + Real.pi / 2), -Real.sin (s.theta + Real.pi / 2))
  let R : ℝ := radius_of_curvature s.z zt s.C
  let center : ℝ × ℝ := (s.x + normal.1 * R, s.z + normal.2 * R)
  let dtheta : ℝ := ds / R
  let p : ℝ × ℝ := rotate s.x s.z center.1 center.2 dtheta
  { x := p.1, z := p.2, theta := s.theta + dtheta, C := s.C }

/-- The state before the loop: `x[0] = 0.`, `z[0] = z0`, `theta = theta0`,
and the freshly computed constant `C`. -/
noncomputable def initState (zt z0 theta0 : ℝ) : LoopState :=
  { x := 0, z := z0, theta := theta0, C := intConst zt z0 theta0 }

/-- The loop state after `i` iterations; `(stateAt zt z0 theta0 i).x` and
`.z` are the array entries `x[i]` and `z[i]` of `plot_flight_path`. -/
noncomputable def stateAt (zt z0 theta0 : ℝ) : ℕ → LoopState
  | 0 => initState zt z0 theta0
  | i + 1 => stepState zt (stateAt zt z0 theta0 i)

/-- The filled `x` array of `plot_flight_path` as a list of length `N`. -/
noncomputable def xs (zt z0 theta0 : ℝ) : List ℝ :=
  (List.range N).map fun i => (stateAt zt z0 theta0 i).x

/-- The filled `z` array of `plot_flight_path` as a list of length `N`. -/
noncomputable def zs (zt z0 theta0 : ℝ) : List ℝ :=
  (List.range N).map fun i => (stateAt zt z0 theta0 i).z

/-- Spec-side formula for `CurvatureRadius`, transcribed from the contract
`R = zt / (1/3 - (C/2) * (zt/z)^1.5)`. -/
noncomputable def CurvatureRadius_spec (z zt C : ℝ) : ℝ :=
  zt / (1 / 3 - C / 2 * (zt / z) ^ (1.5 : ℝ))

/-- Spec-side formula for `RotatePoint`, transcribed from the contract
`xNew = xCenter + dx*cos(angle) + dz*sin(angle)`,
`zNew = zCenter - dx*sin(angle) + dz*cos(angle)`. -/
noncomputable def RotatePoint_spec (x z xCenter zCenter angle : ℝ) : ℝ × ℝ :=
  (xCenter + (x - xCenter) * Real.cos angle + (z - zCenter) * Real.sin angle,
   zCenter - (x - xCenter) * Real.sin angle + (z - zCenter) * Real.cos angle)

/-- Spec-side formula for the integration constant, transcribed from
`C = (cos(theta0) - (1/3)*(z0/zt)) * sqrt(z0/zt)`. -/
noncomputable def IntegrationConstant_spec (zt z0 theta0 : ℝ) : ℝ :=
  (Real.cos theta0 - 1 / 3 * (z0 / zt)) * Real.sqrt (z0 / zt)

/-- The loop body never writes `C`: the `C` component of the state is the
initially computed constant at every iteration count. -/
lemma stateAt_C (zt z0 theta0 : ℝ) (i : ℕ) :
    (stateAt zt z0 theta0 i).C = intConst zt z0 theta0 := by
  induction i with
  | zero => rfl
  | succ j ih => simpa [stateAt, stepState] using ih

/-- The code's constant (with `**.5`) agrees with the spec's `sqrt` form. -/
lemma intConst_eq_spec (zt z0 theta0 : ℝ) :
    intConst zt z0 theta0 = IntegrationConstant_spec zt z0 theta0 := by
  have h05 : (0.5 : ℝ) = 1 / 2 := by norm_num
  rw [intConst, IntegrationConstant_spec, Real.sqrt_eq_rpow, h05]
  ring

/-- Claim C1: `CurvatureRadius(z, zt, C)` returns exactly
`zt / (1/3 - (C/2) * (zt/z)^1.5)` for all inputs. -/
theorem radius_of_curvature_eq_spec (z zt C : ℝ) :
    radius_of_curvature z zt C = CurvatureRadius_spec z zt C := rfl

/-- Claim C2: `RotatePoint(x, z, xCenter, zCenter, angle)` returns exactly
`(xCenter + dx*cos(angle) + dz*sin(angle), zCenter - dx*sin(angle) + dz*cos(angle))`
with `dx = x - xCenter`, `dz = z - zCenter`: plus sign on the x component,
minus sign on the z component. -/
theorem rotate_eq_spec (x z xCenter zCenter angle : ℝ) :
    rotate x z xCenter zCenter angle = RotatePoint_spec x z xCenter zCenter angle := by
  simp only [rotate, RotatePoint_spec, Prod.mk.injEq]
  constructor <;> ring

/-- Claim C7: rotation by angle `0` is the identity, exactly. -/
theorem rotate_zero_identity (x z xCenter zCenter : ℝ) :
    rotate x z xCenter zCenter 0 = (x, z) := by
  simp only [rotate, Real.cos_zero, Real.sin_zero, Prod.mk.injEq]
  constructor <;> ring

/-- Claim C8: for nonzero `zt`, `CurvatureRadius(zt, zt, 0) = 3*zt`:
the `C` term vanishes and the result is `zt` divided by `1/3`. -/
theorem radius_at_trim (zt : ℝ) (h : zt ≠ 0) :
    radius_of_curvature zt zt 0 = 3 * zt := by
  simp only [radius_of_curvature, zero_div, zero_mul, sub_zero]
  rw [div_eq_iff (by norm_num : (1:ℝ)/3 ≠ 0)]
  ring

/-- Witness for C8 at `zt = 2`. -/
theorem radius_at_trim_witness :
    (2 : ℝ) ≠ 0 ∧ radius_of_curvature 2 2 0 = 3 * 2 :=
  ⟨by norm_num, radius_at_trim 2 (by norm_num)⟩

/-- Claim C3: the `C` component of the loop state equals the spec's
`(cos(theta0) - (1/3)*(z0/zt)) * sqrt(z0/zt)` — computed from the initial
conditions before the loop — at every iteration count: it is never modified
during the run. -/
theorem integration_constant_invariant (zt z0 theta0 : ℝ) (i : ℕ) :
    (stateAt zt z0 theta0 i).C = IntegrationConstant_spec zt z0 theta0 := by
  rw [stateAt_C, intConst_eq_spec]

/-- Claim C4: for every index `i` from 1 to `N-1`, the trajectory recurrence
holds with `ds = 1`: with `s` the state at `i-1`,
`normal = (cos(s.theta + pi/2), -sin(s.theta + pi/2))`,
`R = CurvatureRadius(z[i-1], zt, C)`,
`center = (x[i-1] + normal.x*R, z[i-1] + normal.y*R)`, `dtheta = ds/R`,
the point at `i` is `RotatePoint(x[i-1], z[i-1], center.x, center.y, dtheta)`
and the heading at `i` is the heading at `i-1` plus `dtheta`. -/
theorem traj_step_recurrence (zt z0 theta0 : ℝ) (i : ℕ)
    (h1 : 1 ≤ i) (h2 : i ≤ N - 1) :
    ((stateAt zt z0 theta0 i).x, (stateAt zt z0 theta0 i).z) =
      rotate (stateAt zt z0 theta0 (i - 1)).x (stateAt zt z0 theta0 (i - 1)).z
        ((stateAt zt z0 theta0 (i - 1)).x +
          Real.cos ((stateAt zt z0 theta0 (i - 1)).theta + Real.pi / 2) *
            radius_of_curvature (stateAt zt z0 theta0 (i - 1)).z zt
              (intConst zt z0 theta0))
        ((stateAt zt z0 theta0 (i - 1)).z +
          (-Real.sin ((stateAt zt z0 theta0 (i - 1)).theta + Real.pi / 2)) *
            radius_of_curvature (stateAt zt z0 theta0 (i - 1)).z zt
              (intConst zt z0 theta0))
        (ds / radius_of_curvature (stateAt zt z0 theta0 (i - 1)).z zt
              (intConst zt z0 theta0)) ∧
    (stateAt zt z0 theta0 i).theta =
      (stateAt zt z0 theta0 (i - 1)).theta +
        ds / radius_of_curvature (stateAt zt z0 theta0 (i - 1)).z zt
              (intConst zt z0 theta0) := by
  obtain ⟨j, rfl⟩ : ∃ j, i = j + 1 := ⟨i - 1, (Nat.succ_pred_eq_of_pos h1).symm⟩
  simp only [Nat.add_sub_cancel, stateAt, stepState, stateAt_C, Prod.mk.eta]
  exact ⟨trivial, trivial⟩

/-- Witness for C4 at `zt = 1`, `z0 = 2`, `theta0 = 0`, `i = 1`. -/
theorem traj_step_recurrence_witness :
    (1 ≤ 1 ∧ (1 : ℕ) ≤ N - 1) ∧
    (((stateAt 1 2 0 1).x, (stateAt 1 2 0 1).z) =
      rotate (stateAt 1 2 0 (1 - 1)).x (stateAt 1 2 0 (1 - 1)).z
        ((stateAt 1 2 0 (1 - 1)).x +
          Real.cos ((stateAt 1 2 0 (1 - 1)).theta + Real.pi / 2) *
            radius_of_curvature (stateAt 1 2 0 (1 - 1)).z 1 (intConst 1 2 0))
        ((stateAt 1 2 0 (1 - 1)).z +
          (-Real.sin ((stateAt 1 2 0 (1 - 1)).theta + Real.pi / 2)) *
            radius_of_curvature (stateAt 1 2 0 (1 - 1)).z 1 (intConst 1 2 0))
        (ds / radius_of_curvature (stateAt 1 2 0 (1 - 1)).z 1 (intConst 1 2 0)) ∧
    (stateAt 1 2 0 1).theta =
      (stateAt 1 2 0 (1 - 1)).theta +
        ds / radius_of_curvature (stateAt 1 2 0 (1 - 1)).z 1 (intConst 1 2 0)) :=
  ⟨⟨le_refl 1, by norm_num [N]⟩,
   traj_step_recurrence 1 2 0 1 (le_refl 1) (by norm_num [N])⟩

/-- Claim C5: after the loop the `x` and `z` sequences have length exactly
`N = 1000`, with `x[0] = 0` and `z[0] = z0` untouched by the loop (which
starts at index 1). -/
theorem traj_length_init (zt z0 theta0 : ℝ) :
    (xs zt z0 theta0).length = 1000 ∧ (zs zt z0 theta0).length = 1000 ∧
    (xs zt z0 theta0)[0]? = some 0 ∧ (zs zt z0 theta0)[0]? = some z0 := by
  refine ⟨by simp [xs, N], by simp [zs, N], ?_, ?_⟩
  · rw [xs, List.getElem?_map]
    simp [List.getElem?_range, N, stateAt, initState]
  · rw [zs, List.getElem?_map]
    simp [List.getElem?_range, N, stateAt, initState]

/-- Claim C6: the integrator is a total function of its three real inputs —
no input can raise — and for every input, degenerate ones such as `zt = 0`
(division by zero in the constant) or `z0` near 0 included, the `x` and `z`
sequences still have length `N = 1000`; junk values produced by the total
division simply propagate into later points. -/
theorem traj_total_length (zt z0 theta0 : ℝ) :
    (xs zt z0 theta0).length = N ∧ (zs zt z0 theta0).length = N := by
  constructor <;> simp [xs, zs]

/-- Claim C9: the integrator is deterministic and idempotent — two
invocations with identical inputs produce identical constants `C` and
identical `x` and `z` sequences; the embedding depends on no state outside
its arguments. -/
theorem integrator_deterministic (a₁ b₁ c₁ a₂ b₂ c₂ : ℝ)
    (h : (a₁, b₁, c₁) = (a₂, b₂, c₂)) :
    intConst a₁ b₁ c₁ = intConst a₂ b₂ c₂ ∧
    xs a₁ b₁ c₁ = xs a₂ b₂ c₂ ∧ zs a₁ b₁ c₁ = zs a₂ b₂ c₂ := by
  simp only [Prod.mk.injEq] at h
  obtain ⟨h1, h2, h3⟩ := h
  subst h1; subst h2; subst h3
  exact ⟨rfl, rfl, rfl⟩

/-- Witness for C9 at the input triple `(1, 2, 3)` used twice. -/
theorem integrator_deterministic_witness :
    ((1:ℝ), (2:ℝ), (3:ℝ)) = ((1:ℝ), (2:ℝ), (3:ℝ)) ∧
    (intConst 1 2 3 = intConst 1 2 3 ∧
     xs 1 2 3 = xs 1 2 3 ∧ zs 1 2 3 = zs 1 2 3) :=
  ⟨rfl, integrator_deterministic 1 2 3 1 2 3 rfl⟩

/-- Claim C10: `RotatePoint` preserves the distance to the rotation center:
the rotated point lies on the same circle about `(xCenter, zCenter)`. -/
theorem rotate_preserves_radius (x z xCenter zCenter angle : ℝ) :
    ((rotate x z xCenter zCenter angle).1 - xCenter) ^ 2 +
      ((rotate x z xCenter zCenter angle).2 - zCenter) ^ 2 =
    (x - xCenter) ^ 2 + (z - zCenter) ^ 2 := by
  simp only [rotate]
  linear_combination
    ((x - xCenter) ^ 2 + (z - zCenter) ^ 2) * Real.sin_sq_add_cos_sq angle

end Phugoid
